import Mathlib

/-!
Verification of the rsync strategy code of `pv-migrate` (package `rsync`)
against its natural-language specification.

The Go source is shallowly embedded:
* the shell retry loop produced by `scriptTemplate` is embedded as an
  explicit loop over an abstract data-copy tool (`scriptLoop` / `runScript`);
* the `html/template` rendering of `scriptTemplate` is embedded as a small
  template AST plus a rendering engine with Go's text-context HTML escaping;
* the Kubernetes objects (secret, job, service account, role, role binding,
  pod security policy) are embedded as plain structures, and the effectful
  create calls as a state machine over a `Cluster` value with an explicit
  fault schedule standing in for "any other API error".
-/

namespace PvMigrate

/-! ### Constants (source: `const` block, lines 21-26) -/

def maxRetries : Nat := 10

def retryIntervalSecs : Nat := 5

def sshConnectTimeoutSecs : Nat := 5

def pspName : String := "pv-migrate"

/-! ### Transfer-script retry-loop semantics

The shell script produced by `scriptTemplate` is

```
n=0
rc=1
retries=R
until [ "$n" -ge "$retries" ]; do
  rsync ... && rc=0 && break
  n=$((n+1)); echo "..."; sleep D
done
if [ $rc -ne 0 ]; then echo "Rsync job failed after $retries retries"; fi
exit $rc
```

We embed its control flow relative to an abstract tool oracle
`tool : Nat → Bool` giving the exit status of the 1-based i-th invocation
(`true` = exit code zero). -/

structure ScriptRun where
  /-- how many times the data-copy tool was invoked -/
  invocations : Nat
  /-- total seconds spent in `sleep` -/
  totalSleep : Nat
  /-- the script's final exit code (`exit $rc`) -/
  exitCode : Nat
  /-- whether the exhausted-retries message was printed -/
  printsExhausted : Bool
  deriving DecidableEq, Repr

/-- One `until` loop of the script: `attempt` is the 1-based number of the
next invocation, the second argument the number of loop iterations still
allowed (`retries - n`).  Returns (invocations, total sleep, success).
A failed attempt increments `n`, prints, and sleeps `delay` before the
loop condition is re-checked (so the delay after the final failed attempt
is also counted, exactly as the shell code does). -/
def scriptLoop (tool : Nat → Bool) (delay : Nat) : Nat → Nat → Nat × Nat × Bool
  | _, 0 => (0, 0, false)
  | attempt, rem+1 =>
    if tool attempt then (1, 0, true)
    else
      let r := scriptLoop tool delay (attempt+1) rem
      (r.1 + 1, delay + r.2.1, r.2.2)

/-- The whole script: run the loop from attempt 1 with the retry budget,
then `exit $rc`, printing the exhausted-retries message iff `rc ≠ 0`. -/
def runScript (tool : Nat → Bool) (retries delay : Nat) : ScriptRun :=
  let r := scriptLoop tool delay 1 retries
  { invocations := r.1
    totalSleep := r.2.1
    exitCode := if r.2.2 then 0 else 1
    printsExhausted := !r.2.2 }

/-! ### Kubernetes object model

Plain structures mirroring the object literals built by the source
(`metav1.ObjectMeta`, secret, job, service account, role, role binding).
Fields the source leaves at their Go zero value are written explicitly
(`""` / `[]`). -/

structure ObjectMeta where
  name : String
  inNs : String
  labels : List (String × String)
  deriving DecidableEq, Repr

/-- Modelled from the spec: `k8s.ComponentLabels` (package `internal/k8s`,
not part of the provided sources) produces the common label set
`{instance=<instanceId>, component=<componentTag>}`. -/
def ComponentLabels (instanceId component : String) : List (String × String) :=
  [("instance", instanceId), ("component", component)]

/-- Modelled from the spec: `k8s.Rsync` (package `internal/k8s`, not part of
the provided sources) is the fixed component tag of the rsync strategy's
objects, the `rsync` segment of their `pv-migrate-rsync-<id>` names. -/
def Rsync : String := "rsync"

structure SecretK where
  metadata : ObjectMeta
  data : List (String × String)
  deriving DecidableEq, Repr

/-- Pure part of `createRsyncPrivateKeySecret` (lines 91-104): the secret
object submitted to the destination cluster.  `claimNs` is
`pvcInfo.Claim.Namespace` of the `pvc.Info` argument. -/
def createRsyncPrivateKeySecret (instanceId claimNs privateKey : String) : SecretK :=
  { metadata :=
      { name := "pv-migrate-rsync-" ++ instanceId
        inNs := claimNs
        labels := ComponentLabels instanceId Rsync }
    data := [("privateKey", privateKey)] }

structure ServiceAccountK where
  metadata : ObjectMeta
  deriving DecidableEq, Repr

/-- The service account literal of `createPSPResources` (lines 271-275). -/
def pspServiceAccount (id : String) : ServiceAccountK :=
  ⟨{ name := "pv-migrate-" ++ id, inNs := "", labels := [] }⟩

structure PolicyRule where
  verbs : List String
  apiGroups : List String
  resources : List String
  resourceNames : List String
  deriving DecidableEq, Repr

structure RoleK where
  metadata : ObjectMeta
  rules : List PolicyRule
  deriving DecidableEq, Repr

/-- The role literal of `createPSPResources` (lines 282-295). -/
def pspRole (id ns : String) : RoleK :=
  { metadata := { name := "pv-migrate-" ++ id, inNs := ns, labels := [] }
    rules := [⟨["use"], ["policy"], ["podsecuritypolicies"], [pspName]⟩] }

structure SubjectK where
  kind : String
  name : String
  deriving DecidableEq, Repr

structure RoleRefK where
  apiGroup : String
  kind : String
  name : String
  deriving DecidableEq, Repr

structure RoleBindingK where
  metadata : ObjectMeta
  subjects : List SubjectK
  roleRef : RoleRefK
  deriving DecidableEq, Repr

/-- The role binding literal of `createPSPResources` (lines 302-318). -/
def pspRoleBinding (id ns : String) : RoleBindingK :=
  { metadata := { name := "pv-migrate-" ++ id, inNs := ns, labels := [] }
    subjects := [⟨"ServiceAccount", "pv-migrate-" ++ id⟩]
    roleRef := ⟨"rbac.authorization.k8s.io", "Role", "pv-migrate-" ++ id⟩ }

/-! ### Cluster state machine for the create calls

The orchestration API client is embedded as a state machine: the
cluster holds the set of existing objects (identified by kind, namespace,
name), a fault schedule injecting "any other error" outcomes for the API
(one entry consumed per call, `none` = the call behaves normally), and an
event log of every attempted create, in order. -/

inductive K8sKind
  | psp
  | serviceAccount
  | role
  | roleBinding
  deriving DecidableEq, Repr

structure ObjRef where
  kind : K8sKind
  inNs : String
  name : String
  deriving DecidableEq, Repr

inductive CreateResult
  | ok
  | alreadyExists
  | otherError (msg : String)
  deriving DecidableEq, Repr

structure Cluster where
  objects : List ObjRef
  faults : List (Option String)
  events : List ObjRef
  deriving DecidableEq, Repr

def popFault (c : Cluster) : Option String × Cluster :=
  match c.faults with
  | [] => (none, c)
  | f :: rest => (f, { c with faults := rest })

/-- Semantics of a Kubernetes `Create` call: either an injected fault
(any non-"already exists" API error), or the declarative create which
fails with `alreadyExists` iff the object is present, and otherwise adds
it.  Every attempt is recorded in the event log. -/
def apiCreate (c : Cluster) (o : ObjRef) : Cluster × CreateResult :=
  let p := popFault c
  let c1 := { p.2 with events := p.2.events ++ [o] }
  match p.1 with
  | some m => (c1, .otherError m)
  | none =>
    if o ∈ c1.objects then (c1, .alreadyExists)
    else ({ c1 with objects := o :: c1.objects }, .ok)

def pspRef : ObjRef := ⟨.psp, "", pspName⟩

/-- `ensurePSP` (lines 328-359): create the cluster-scoped shared
pod security policy, treating "already exists" as success
(`errors.IsAlreadyExists(err)` → `nil`) and returning any other error. -/
def ensurePSP (c : Cluster) : Cluster × Option String :=
  let r := apiCreate c pspRef
  match r.2 with
  | .alreadyExists => (r.1, none)
  | .ok => (r.1, none)
  | .otherError m => (r.1, some m)

def saRef (id ns : String) : ObjRef := ⟨.serviceAccount, ns, "pv-migrate-" ++ id⟩

def roleRefK (id ns : String) : ObjRef := ⟨.role, ns, "pv-migrate-" ++ id⟩

def rbRef (id ns : String) : ObjRef := ⟨.roleBinding, ns, "pv-migrate-" ++ id⟩

def resultToErr : CreateResult → Option String
  | .ok => none
  | .alreadyExists => some "already exists"
  | .otherError m => some m

/-- `createPSPResources` (lines 263-326): ensure the shared policy, then
create the service account, the role and the role binding in sequence,
returning the first error encountered, else the grant's name. -/
def createPSPResources (c : Cluster) (id ns : String) :
    Cluster × Except String String :=
  match ensurePSP c with
  | (c1, some m) => (c1, .error m)
  | (c1, none) =>
    let r1 := apiCreate c1 (saRef id ns)
    match resultToErr r1.2 with
    | some m => (r1.1, .error m)
    | none =>
      let r2 := apiCreate r1.1 (roleRefK id ns)
      match resultToErr r2.2 with
      | some m => (r2.1, .error m)
      | none =>
        let r3 := apiCreate r2.1 (rbRef id ns)
        match resultToErr r3.2 with
        | some m => (r3.1, .error m)
        | none => (r3.1, .ok ("pv-migrate-" ++ id))

/-- The full sequence of create calls issued by `createPSPResources`. -/
def pspSeq (id ns : String) : List ObjRef :=
  [pspRef, saRef id ns, roleRefK id ns, rbRef id ns]

/-! ### Ephemeral object names -/

/-- The secret name of `createRsyncPrivateKeySecret` (line 94). -/
def rsyncSecretName (id : String) : String := "pv-migrate-rsync-" ++ id

/-- The job name of `buildRsyncJobDest` (line 114). -/
def rsyncJobName (id : String) : String := "pv-migrate-rsync-" ++ id

/-- The service-account / role / role-binding name of
`createPSPResources` (line 269). -/
def pspResourceName (id : String) : String := "pv-migrate-" ++ id

/-- All ephemeral object names generated for one instance identifier. -/
def ephemeralNames (id : String) : List String :=
  [rsyncSecretName id, rsyncJobName id, pspResourceName id]

/-! ### The script template and its rendering

`scriptTemplate` is parsed by Go's `html/template`.  We embed the parsed
template as an AST of text pieces, field actions and two-armed
conditionals, and rendering as Go performs it: field values
are looked up in the data environment (a missing field is the error case),
rendered, and — because the package is `html/template` and the whole
template is HTML text context — HTML-escaped on insertion.  The text
pieces carry the template's literal text with the `-` trim markers already
applied (a `-` right of an action deletes the immediately following
whitespace run, which is how the source's indented template collapses). -/

inductive TValue
  | b (v : Bool)
  | n (v : Nat)
  | s (v : String)
  deriving DecidableEq, Repr

/-- Go template truthiness: zero values (false, 0, "") are false. -/
def TValue.truthy : TValue → Bool
  | .b v => v
  | .n v => v != 0
  | .s v => v != ""

def TValue.render : TValue → String
  | .b true => "true"
  | .b false => "false"
  | .n v => toString v
  | .s v => v

/-- Go `html/template` text-context escaping (`htmlEscaper`):
`&` `<` `>` `"` `'` are replaced by entities, NUL by U+FFFD. -/
def escapeChar (c : Char) : String :=
  if c.toNat = 38 then "&amp;"
  else if c.toNat = 60 then "&lt;"
  else if c.toNat = 62 then "&gt;"
  else if c.toNat = 34 then "&#34;"
  else if c.toNat = 39 then "&#39;"
  else if c.toNat = 0 then "�"
  else String.singleton c

def htmlEscape (s : String) : String :=
  s.data.foldr (fun c acc => escapeChar c ++ acc) ""

inductive TmplLeaf
  | text (s : String)
  | field (f : String)
  deriving DecidableEq, Repr

inductive TmplNode
  | leaf (l : TmplLeaf)
  | cond (f : String) (thenBody elseBody : List TmplLeaf)
  deriving DecidableEq, Repr

def lookupField (env : List (String × TValue)) (f : String) : Option TValue :=
  (env.find? (fun p => p.1 == f)).map (fun p => p.2)

def renderLeaf (env : List (String × TValue)) : TmplLeaf → Except String String
  | .text s => .ok s
  | .field f =>
    match lookupField env f with
    | none => .error ("cannot evaluate field " ++ f)
    | some v => .ok (htmlEscape (TValue.render v))

def renderLeaves (env : List (String × TValue)) :
    List TmplLeaf → Except String String
  | [] => .ok ""
  | l :: rest =>
    match renderLeaf env l, renderLeaves env rest with
    | .ok s, .ok t => .ok (s ++ t)
    | .error e, _ => .error e
    | _, .error e => .error e

def renderNode (env : List (String × TValue)) : TmplNode → Except String String
  | .leaf l => renderLeaf env l
  | .cond f thenBody elseBody =>
    match lookupField env f with
    | none => .error ("cannot evaluate field " ++ f)
    | some v =>
      if v.truthy then renderLeaves env thenBody else renderLeaves env elseBody

def renderNodes (env : List (String × TValue)) :
    List TmplNode → Except String String
  | [] => .ok ""
  | n :: rest =>
    match renderNode env n, renderNodes env rest with
    | .ok s, .ok t => .ok (s ++ t)
    | .error e, _ => .error e
    | _, .error e => .error e

/-- The parsed `scriptTemplate` (lines 28-61), trim markers applied. -/
def scriptTemplate : List TmplNode :=
  [.leaf (.text "\nn=0\nrc=1\nretries="),
   .leaf (.field "MaxRetries"),
   .leaf (.text "\nuntil [ \"$n\" -ge \"$retries\" ]\ndo\n  rsync \\\n    -avzh \\\n    --progress \\\n    "),
   .cond "DeleteExtraneousFiles" [.text "--delete \\\n    "] [],
   .cond "NoChown" [.text "--no-o --no-g \\\n    "] [],
   .cond "SshTargetHost"
     [.text "-e \"ssh -o StrictHostKeyChecking=no -o UserKnownHostsFile=/dev/null -o ConnectTimeout=",
      .field "SshConnectTimeoutSecs",
      .text "\" \\\n    root@",
      .field "SshTargetHost",
      .text ":/source/ \\\n    "]
     [.text "/source/ \\\n    "],
   .leaf (.text "/dest/ && \\\n    rc=0 && \\\n    break\n  n=$((n+1))\n  echo \"rsync attempt $n/"),
   .leaf (.field "MaxRetries"),
   .leaf (.text " failed, waiting "),
   .leaf (.field "RetryIntervalSecs"),
   .leaf (.text " seconds before trying again\"\n  sleep "),
   .leaf (.field "RetryIntervalSecs"),
   .leaf (.text "\ndone\n\nif [ $rc -ne 0 ]; then\n  echo \"Rsync job failed after $retries retries\"\nfi\nexit $rc\n")]

/-- The `script` struct value of `BuildRsyncScript` (lines 73-80), as the
template's data environment. -/
def scriptEnv (deleteExtraneousFiles noChown : Bool) (sshTargetHost : String) :
    List (String × TValue) :=
  [("MaxRetries", .n maxRetries),
   ("DeleteExtraneousFiles", .b deleteExtraneousFiles),
   ("NoChown", .b noChown),
   ("SshTargetHost", .s sshTargetHost),
   ("SshConnectTimeoutSecs", .n sshConnectTimeoutSecs),
   ("RetryIntervalSecs", .n retryIntervalSecs)]

/-- `BuildRsyncScript` (lines 72-89): execute the template against the
`script` struct, propagating any template-execution error. -/
def BuildRsyncScript (deleteExtraneousFiles noChown : Bool)
    (sshTargetHost : String) : Except String String :=
  renderNodes (scriptEnv deleteExtraneousFiles noChown sshTargetHost)
    scriptTemplate

/-- The script shape claimed by the spec, parameterized by the host text
that ends up between `root@` and `:/source/` (the claim inserts
`sshTargetHost` verbatim there; the code inserts its HTML escaping). -/
def rsyncScriptSpec (deleteExtraneousFiles noChown : Bool) (host : String) :
    String :=
  "\nn=0\nrc=1\nretries=10\nuntil [ \"$n\" -ge \"$retries\" ]\ndo\n  rsync \\\n    -avzh \\\n    --progress \\\n    "
  ++ (if deleteExtraneousFiles then "--delete \\\n    " else "")
  ++ (if noChown then "--no-o --no-g \\\n    " else "")
  ++ (if host != "" then
        "-e \"ssh -o StrictHostKeyChecking=no -o UserKnownHostsFile=/dev/null -o ConnectTimeout=5\" \\\n    root@"
          ++ host ++ ":/source/ \\\n    "
      else "/source/ \\\n    ")
  ++ "/dest/ && \\\n    rc=0 && \\\n    break\n  n=$((n+1))\n  echo \"rsync attempt $n/10 failed, waiting 5 seconds before trying again\"\n  sleep 5\ndone\n\nif [ $rc -ne 0 ]; then\n  echo \"Rsync job failed after $retries retries\"\nfi\nexit $rc\n"

/-! ### The rsync job and the task model -/

structure VolumeMountK where
  name : String
  mountPath : String
  subPath : String
  deriving DecidableEq, Repr

structure ContainerK where
  name : String
  image : String
  command : List String
  volumeMounts : List VolumeMountK
  deriving DecidableEq, Repr

inductive VolumeSourceK
  | persistentVolumeClaim (claimName : String)
  | secret (secretName : String) (defaultMode : Nat)
  deriving DecidableEq, Repr

structure VolumeK where
  name : String
  source : VolumeSourceK
  deriving DecidableEq, Repr

structure PodSpecK where
  serviceAccountName : String
  volumes : List VolumeK
  containers : List ContainerK
  nodeName : String
  restartPolicy : String
  deriving DecidableEq, Repr

structure PodTemplateSpecK where
  metadata : ObjectMeta
  spec : PodSpecK
  deriving DecidableEq, Repr

structure JobSpecK where
  backoffLimit : Nat
  ttlSecondsAfterFinished : Nat
  template : PodTemplateSpecK
  deriving DecidableEq, Repr

structure JobK where
  metadata : ObjectMeta
  spec : JobSpecK
  deriving DecidableEq, Repr

structure ClaimK where
  name : String
  inNs : String
  deriving DecidableEq, Repr

structure PvcInfoK where
  claim : ClaimK
  mountedNode : String
  deriving DecidableEq, Repr

structure MigrationOptionsK where
  deleteExtraneousFiles : Bool
  noChown : Bool
  keyAlgorithm : String
  sourceCreatePSP : Bool
  destCreatePSP : Bool
  deriving DecidableEq, Repr

structure MigrationK where
  options : MigrationOptionsK
  rsyncImage : String
  sshdImage : String
  deriving DecidableEq, Repr

structure TaskK where
  id : String
  migration : MigrationK
  sourceInfo : PvcInfoK
  destInfo : PvcInfoK
  deriving DecidableEq, Repr

/-- `buildRsyncJobDest` (lines 110-190): build the run-to-completion rsync
job for the destination side. -/
def buildRsyncJobDest (t : TaskK) (targetHost privateKeySecretName svcAccName : String) :
    Except String JobK :=
  let jobTTLSeconds := 600
  let backoffLimit := 0
  let id := t.id
  let jobName := "pv-migrate-rsync-" ++ id
  let d := t.destInfo
  let opts := t.migration.options
  match BuildRsyncScript opts.deleteExtraneousFiles opts.noChown targetHost with
  | .error e => .error e
  | .ok rsyncScript =>
    let permissions := 256
    .ok
      { metadata := { name := jobName, inNs := d.claim.inNs, labels := [] }
        spec :=
          { backoffLimit := backoffLimit
            ttlSecondsAfterFinished := jobTTLSeconds
            template :=
              { metadata :=
                  { name := jobName, inNs := d.claim.inNs
                    labels := ComponentLabels id Rsync }
                spec :=
                  { serviceAccountName := svcAccName
                    volumes :=
                      [⟨"dest-vol", .persistentVolumeClaim d.claim.name⟩,
                       ⟨"private-key-vol", .secret privateKeySecretName permissions⟩]
                    containers :=
                      [{ name := "app"
                         image := t.migration.rsyncImage
                         command := ["sh", "-c", rsyncScript]
                         volumeMounts :=
                           [⟨"dest-vol", "/dest", ""⟩,
                            ⟨"private-key-vol",
                             "/root/.ssh/id_" ++ opts.keyAlgorithm,
                             "privateKey"⟩] }]
                    nodeName := d.mountedNode
                    restartPolicy := "Never" } } } }

theorem scriptLoop_invocations_le (tool : Nat → Bool) (delay : Nat) :
    ∀ rem a, (scriptLoop tool delay a rem).1 ≤ rem := by
  intro rem
  induction rem with
  | zero => intro a; simp [scriptLoop]
  | succ m ih =>
    intro a
    by_cases h : tool a = true
    · simp [scriptLoop, h]
    · simp only [scriptLoop, h]
      simp only [Bool.false_eq_true, if_false]
      have := ih (a+1)
      omega

theorem scriptLoop_all_fail (tool : Nat → Bool) (delay : Nat) :
    ∀ rem a, (∀ j, a ≤ j → j < a + rem → tool j = false) →
      scriptLoop tool delay a rem = (rem, rem * delay, false) := by
  intro rem
  induction rem with
  | zero => intro a _; simp [scriptLoop]
  | succ m ih =>
    intro a hfail
    have ha : tool a = false := hfail a (Nat.le_refl a) (by omega)
    have hrec := ih (a+1) (fun j h1 h2 => hfail j (by omega) (by omega))
    have he : delay + m * delay = (m + 1) * delay := by ring
    simp only [scriptLoop, ha, Bool.false_eq_true, if_false, hrec, he]

theorem scriptLoop_first_success (tool : Nat → Bool) (delay : Nat) :
    ∀ k a rem, k < rem → (∀ j, j < k → tool (a + j) = false) →
      tool (a + k) = true →
      scriptLoop tool delay a rem = (k + 1, k * delay, true) := by
  intro k
  induction k with
  | zero =>
    intro a rem hrem _ hsucc
    match rem, hrem with
    | m+1, _ =>
      simp only [Nat.add_zero] at hsucc
      simp [scriptLoop, hsucc]
  | succ p ih =>
    intro a rem hrem hfail hsucc
    match rem, hrem with
    | m+1, hrem =>
      have ha : tool a = false := by
        have := hfail 0 (Nat.succ_pos p)
        simpa using this
      have hfail2 : ∀ j, j < p → tool (a + 1 + j) = false := by
        intro j hj
        have := hfail (j+1) (by omega)
        have he : a + (j + 1) = a + 1 + j := by omega
        rwa [he] at this
      have hsucc2 : tool (a + 1 + p) = true := by
        have he : a + (p + 1) = a + 1 + p := by omega
        rwa [he] at hsucc
      have hrec := ih (a+1) m (by omega) hfail2 hsucc2
      have he : delay + p * delay = (p + 1) * delay := by ring
      simp only [scriptLoop, ha, Bool.false_eq_true, if_false, hrec, he]

/-- C1: the generated transfer script invokes the data-copy tool at most
`maxRetries = 10` times with a fixed `retryIntervalSecs = 5` second sleep
after each failed attempt; it stops and exits zero on the first invocation
that exits zero (first success at attempt `k` gives exactly `k` invocations
and `(k-1)·D` total delay — in particular the stub failing on attempts 1-3
and succeeding on attempt 4 gives 4 invocations and `3·D` delay); if all
`R` invocations fail it performs exactly `R` invocations, prints the
exhausted-retries message, and exits non-zero. -/
theorem transfer_script_retry_contract :
    (∀ tool : Nat → Bool,
      (runScript tool maxRetries retryIntervalSecs).invocations ≤ maxRetries) ∧
    (∀ (tool : Nat → Bool) (k : Nat), 1 ≤ k → k ≤ maxRetries →
      (∀ j, 1 ≤ j → j < k → tool j = false) → tool k = true →
      runScript tool maxRetries retryIntervalSecs =
        ⟨k, (k - 1) * retryIntervalSecs, 0, false⟩) ∧
    (∀ tool : Nat → Bool,
      (∀ n, 1 ≤ n → n ≤ maxRetries → tool n = false) →
      runScript tool maxRetries retryIntervalSecs =
        ⟨maxRetries, maxRetries * retryIntervalSecs, 1, true⟩) := by
  refine ⟨?_, ?_, ?_⟩
  · intro tool
    have := scriptLoop_invocations_le tool retryIntervalSecs maxRetries 1
    simpa [runScript] using this
  · intro tool k hk1 hk2 hfail hsucc
    have hfail2 : ∀ j, j < k - 1 → tool (1 + j) = false := by
      intro j hj
      exact hfail (1+j) (by omega) (by omega)
    have hsucc2 : tool (1 + (k - 1)) = true := by
      have he : 1 + (k - 1) = k := by omega
      rwa [he]
    have h := scriptLoop_first_success tool retryIntervalSecs (k-1) 1 maxRetries
      (by simp [maxRetries] at hk2 ⊢; omega) hfail2 hsucc2
    simp only [runScript, h]
    have he : k - 1 + 1 = k := by omega
    simp [he]
  · intro tool hfail
    have h := scriptLoop_all_fail tool retryIntervalSecs maxRetries 1
      (fun j h1 h2 => hfail j h1 (by simp [maxRetries] at h2 ⊢; omega))
    simp [runScript, h]

/-- Witness for C1: the stub failing on attempts 1-3 and succeeding on
attempt 4, with the default budget, performs exactly 4 invocations, 15
seconds (3·D) of delay, and exits zero. -/
theorem transfer_script_retry_contract_witness :
    runScript (fun n => decide (4 ≤ n)) maxRetries retryIntervalSecs =
      ⟨4, (4 - 1) * retryIntervalSecs, 0, false⟩ :=
  transfer_script_retry_contract.2.1 (fun n => decide (4 ≤ n)) 4
    (by decide) (by decide)
    (fun j h1 h2 => by simp only [decide_eq_false_iff_not]; omega)
    (by decide)

theorem apiCreate_nofault_mem (c : Cluster) (o : ObjRef)
    (hf : c.faults = []) (hm : o ∈ c.objects) :
    apiCreate c o = ({ c with events := c.events ++ [o] }, .alreadyExists) := by
  simp [apiCreate, popFault, hf, hm]

theorem apiCreate_nofault_notMem (c : Cluster) (o : ObjRef)
    (hf : c.faults = []) (hm : o ∉ c.objects) :
    apiCreate c o =
      ({ c with objects := o :: c.objects, events := c.events ++ [o] }, .ok) := by
  simp [apiCreate, popFault, hf, hm]

/-- C2: `ensurePSP` is idempotent.  It succeeds exactly when the create
call succeeds or fails with "already exists", errors exactly when the
create call fails with any other error, and — on a fault-free cluster with
at most one copy of the policy — a first call leaves exactly one policy
object and a second call against the resulting state returns no error and
changes no object. -/
theorem ensurePSP_idempotent :
    (∀ c : Cluster, (apiCreate c pspRef).2 = .alreadyExists →
      (ensurePSP c).2 = none) ∧
    (∀ (c : Cluster) (m : String), (apiCreate c pspRef).2 = .otherError m →
      (ensurePSP c).2 = some m) ∧
    (∀ c : Cluster, (ensurePSP c).2 ≠ none →
      ∃ m, (apiCreate c pspRef).2 = .otherError m) ∧
    (∀ c : Cluster, c.faults = [] → List.count pspRef c.objects ≤ 1 →
      (ensurePSP c).2 = none ∧
      List.count pspRef (ensurePSP c).1.objects = 1 ∧
      (ensurePSP (ensurePSP c).1).2 = none ∧
      (ensurePSP (ensurePSP c).1).1.objects = (ensurePSP c).1.objects) := by
  have hsplit : ∀ c : Cluster, ensurePSP c =
      ((apiCreate c pspRef).1,
        match (apiCreate c pspRef).2 with
        | .otherError m => some m
        | _ => none) := by
    intro c
    simp only [ensurePSP]
    rcases h : (apiCreate c pspRef).2 with _ | _ | m <;> simp [h]
  refine ⟨?_, ?_, ?_, ?_⟩
  · intro c h
    rw [hsplit c, h]
  · intro c m h
    rw [hsplit c, h]
  · intro c h
    rw [hsplit c] at h
    rcases hr : (apiCreate c pspRef).2 with _ | _ | m
    · rw [hr] at h; simp at h
    · rw [hr] at h; simp at h
    · exact ⟨m, rfl⟩
  · intro c hf hcount
    by_cases hm : pspRef ∈ c.objects
    · have h1 := apiCreate_nofault_mem c pspRef hf hm
      have e1 : ensurePSP c = ({ c with events := c.events ++ [pspRef] }, none) := by
        rw [hsplit c, h1]
      have hcnt : List.count pspRef c.objects = 1 := by
        have := List.count_pos_iff.mpr hm
        omega
      refine ⟨by rw [e1], by rw [e1]; simpa using hcnt, ?_, ?_⟩
      · have h2 := apiCreate_nofault_mem { c with events := c.events ++ [pspRef] }
          pspRef hf hm
        rw [e1, hsplit, h2]
      · have h2 := apiCreate_nofault_mem { c with events := c.events ++ [pspRef] }
          pspRef hf hm
        rw [e1, hsplit, h2]
    · have h1 := apiCreate_nofault_notMem c pspRef hf hm
      have e1 : ensurePSP c = ({ c with objects := pspRef :: c.objects, events := c.events ++ [pspRef] }, none) := by
        rw [hsplit c, h1]
      have hcnt : List.count pspRef c.objects = 0 := by
        simpa using List.count_eq_zero.mpr hm
      have hmem2 : pspRef ∈ pspRef :: c.objects := List.mem_cons_self pspRef c.objects
      have h2 := apiCreate_nofault_mem
        { c with objects := pspRef :: c.objects, events := c.events ++ [pspRef] }
        pspRef hf hmem2
      refine ⟨by rw [e1], ?_, ?_, ?_⟩
      · rw [e1]
        simp [List.count_cons_self, hcnt]
      · rw [e1, hsplit, h2]
      · rw [e1, hsplit, h2]

/-- Witness for C2: on the empty cluster the first `ensurePSP` call
succeeds and creates the policy, and the second call succeeds without
touching the objects. -/
theorem ensurePSP_idempotent_witness :
    (ensurePSP ⟨[], [], []⟩).2 = none ∧
    List.count pspRef (ensurePSP ⟨[], [], []⟩).1.objects = 1 ∧
    (ensurePSP (ensurePSP ⟨[], [], []⟩).1).2 = none ∧
    (ensurePSP (ensurePSP ⟨[], [], []⟩).1).1.objects =
      (ensurePSP ⟨[], [], []⟩).1.objects :=
  ensurePSP_idempotent.2.2.2 ⟨[], [], []⟩ rfl (by decide)

theorem ensurePSP_eq (c : Cluster) :
    ensurePSP c =
      ((apiCreate c pspRef).1,
        match (apiCreate c pspRef).2 with
        | .otherError m => some m
        | _ => none) := by
  simp only [ensurePSP]
  rcases h : (apiCreate c pspRef).2 with _ | _ | m <;> simp [h]

theorem apiCreate_fault (c : Cluster) (x : ObjRef) (m : String)
    (rest : List (Option String)) (hf : c.faults = some m :: rest) :
    apiCreate c x =
      ({ c with faults := rest, events := c.events ++ [x] }, .otherError m) := by
  simp [apiCreate, popFault, hf]

theorem apiCreate_nfault_notMem (c : Cluster) (x : ObjRef)
    (rest : List (Option String)) (hf : c.faults = none :: rest)
    (hm : x ∉ c.objects) :
    apiCreate c x =
      ({ c with faults := rest, objects := x :: c.objects, events := c.events ++ [x] }, .ok) := by
  simp [apiCreate, popFault, hf, hm]

theorem apiCreate_nfault_mem (c : Cluster) (x : ObjRef)
    (rest : List (Option String)) (hf : c.faults = none :: rest)
    (hm : x ∈ c.objects) :
    apiCreate c x =
      ({ c with faults := rest, events := c.events ++ [x] }, .alreadyExists) := by
  simp [apiCreate, popFault, hf, hm]

theorem apiCreate_objects_mono (c : Cluster) (x : ObjRef) :
    c.objects ⊆ (apiCreate c x).1.objects := by
  intro o ho
  rcases hf : c.faults with _ | ⟨f, rest⟩
  · by_cases hm : x ∈ c.objects
    · rw [apiCreate_nofault_mem c x hf hm]; exact ho
    · rw [apiCreate_nofault_notMem c x hf hm]; exact List.mem_cons_of_mem x ho
  · rcases f with _ | m
    · by_cases hm : x ∈ c.objects
      · rw [apiCreate_nfault_mem c x rest hf hm]; exact ho
      · rw [apiCreate_nfault_notMem c x rest hf hm]
        exact List.mem_cons_of_mem x ho
    · rw [apiCreate_fault c x m rest hf]; exact ho

theorem ensurePSP_objects_mono (c : Cluster) :
    c.objects ⊆ (ensurePSP c).1.objects := by
  rw [ensurePSP_eq]
  exact apiCreate_objects_mono c pspRef

theorem apiCreate_events (c : Cluster) (x : ObjRef) :
    (apiCreate c x).1.events = c.events ++ [x] := by
  rcases hf : c.faults with _ | ⟨f, rest⟩
  · by_cases hm : x ∈ c.objects
    · rw [apiCreate_nofault_mem c x hf hm]
    · rw [apiCreate_nofault_notMem c x hf hm]
  · rcases f with _ | m
    · by_cases hm : x ∈ c.objects
      · rw [apiCreate_nfault_mem c x rest hf hm]
      · rw [apiCreate_nfault_notMem c x rest hf hm]
    · rw [apiCreate_fault c x m rest hf]

theorem ensurePSP_events (c : Cluster) :
    (ensurePSP c).1.events = c.events ++ [pspRef] := by
  rw [ensurePSP_eq]
  exact apiCreate_events c pspRef

theorem saRef_ne_pspRef (id ns : String) : saRef id ns ≠ pspRef := by
  simp [saRef, pspRef]

theorem roleRefK_ne_pspRef (id ns : String) : roleRefK id ns ≠ pspRef := by
  simp [roleRefK, pspRef]

theorem roleRefK_ne_saRef (id ns : String) : roleRefK id ns ≠ saRef id ns := by
  simp [roleRefK, saRef]

theorem rbRef_ne_pspRef (id ns : String) : rbRef id ns ≠ pspRef := by
  simp [rbRef, pspRef]

theorem rbRef_ne_saRef (id ns : String) : rbRef id ns ≠ saRef id ns := by
  simp [rbRef, saRef]

theorem rbRef_ne_roleRefK (id ns : String) : rbRef id ns ≠ roleRefK id ns := by
  simp [rbRef, roleRefK]

theorem ensurePSP_fault (c : Cluster) (m : String) (rest : List (Option String))
    (hf : c.faults = some m :: rest) :
    ensurePSP c =
      ({ c with faults := rest, events := c.events ++ [pspRef] }, some m) := by
  rw [ensurePSP_eq, apiCreate_fault c pspRef m rest hf]

theorem ensurePSP_nfault_notMem (c : Cluster) (rest : List (Option String))
    (hf : c.faults = none :: rest) (hm : pspRef ∉ c.objects) :
    ensurePSP c =
      ({ c with faults := rest, objects := pspRef :: c.objects, events := c.events ++ [pspRef] }, none) := by
  rw [ensurePSP_eq, apiCreate_nfault_notMem c pspRef rest hf hm]

theorem ensurePSP_nofault_notMem (c : Cluster)
    (hf : c.faults = []) (hm : pspRef ∉ c.objects) :
    ensurePSP c =
      ({ c with objects := pspRef :: c.objects, events := c.events ++ [pspRef] }, none) := by
  rw [ensurePSP_eq, apiCreate_nofault_notMem c pspRef hf hm]

theorem ensurePSP_nofault_mem (c : Cluster)
    (hf : c.faults = []) (hm : pspRef ∈ c.objects) :
    ensurePSP c = ({ c with events := c.events ++ [pspRef] }, none) := by
  rw [ensurePSP_eq, apiCreate_nofault_mem c pspRef hf hm]

theorem createPSPResources_objects_mono (c : Cluster) (id ns : String) :
    c.objects ⊆ (createPSPResources c id ns).1.objects := by
  rcases h1 : ensurePSP c with ⟨c1, e1⟩
  have m1 : c.objects ⊆ c1.objects := by
    have := ensurePSP_objects_mono c
    rwa [h1] at this
  cases e1 with
  | some m => simp only [createPSPResources, h1]; exact m1
  | none =>
    rcases h2 : apiCreate c1 (saRef id ns) with ⟨c2, r2⟩
    have m2 : c1.objects ⊆ c2.objects := by
      have := apiCreate_objects_mono c1 (saRef id ns)
      rwa [h2] at this
    rcases h3 : apiCreate c2 (roleRefK id ns) with ⟨c3, r3⟩
    have m3 : c2.objects ⊆ c3.objects := by
      have := apiCreate_objects_mono c2 (roleRefK id ns)
      rwa [h3] at this
    rcases h4 : apiCreate c3 (rbRef id ns) with ⟨c4, r4⟩
    have m4 : c3.objects ⊆ c4.objects := by
      have := apiCreate_objects_mono c3 (rbRef id ns)
      rwa [h4] at this
    cases r2 with
    | otherError m => simp only [createPSPResources, h1, h2, resultToErr]; exact m1.trans m2
    | alreadyExists => simp only [createPSPResources, h1, h2, resultToErr]; exact m1.trans m2
    | ok =>
      cases r3 with
      | otherError m =>
        simp only [createPSPResources, h1, h2, h3, resultToErr]
        exact (m1.trans m2).trans m3
      | alreadyExists =>
        simp only [createPSPResources, h1, h2, h3, resultToErr]
        exact (m1.trans m2).trans m3
      | ok =>
        cases r4 with
        | otherError m =>
          simp only [createPSPResources, h1, h2, h3, h4, resultToErr]
          exact ((m1.trans m2).trans m3).trans m4
        | alreadyExists =>
          simp only [createPSPResources, h1, h2, h3, h4, resultToErr]
          exact ((m1.trans m2).trans m3).trans m4
        | ok =>
          simp only [createPSPResources, h1, h2, h3, h4, resultToErr]
          exact ((m1.trans m2).trans m3).trans m4

theorem createPSPResources_events_order (c : Cluster) (id ns : String) :
    ∃ k, 1 ≤ k ∧ k ≤ 4 ∧
      (createPSPResources c id ns).1.events = c.events ++ (pspSeq id ns).take k ∧
      (∀ r, (createPSPResources c id ns).2 = .ok r → k = 4) := by
  rcases h1 : ensurePSP c with ⟨c1, e1⟩
  have ev1 : c1.events = c.events ++ [pspRef] := by
    have := ensurePSP_events c
    rwa [h1] at this
  cases e1 with
  | some m =>
    refine ⟨1, by omega, by omega, ?_, ?_⟩
    · simp only [createPSPResources, h1, ev1, pspSeq, List.take]
    · intro r hr
      simp only [createPSPResources, h1] at hr
      cases hr
  | none =>
    rcases h2 : apiCreate c1 (saRef id ns) with ⟨c2, r2⟩
    have ev2 : c2.events = c.events ++ [pspRef, saRef id ns] := by
      have := apiCreate_events c1 (saRef id ns)
      rw [h2] at this
      simp only at this
      rw [this, ev1, List.append_assoc]
      rfl
    rcases h3 : apiCreate c2 (roleRefK id ns) with ⟨c3, r3⟩
    have ev3 : c3.events = c.events ++ [pspRef, saRef id ns, roleRefK id ns] := by
      have := apiCreate_events c2 (roleRefK id ns)
      rw [h3] at this
      simp only at this
      rw [this, ev2, List.append_assoc]
      rfl
    rcases h4 : apiCreate c3 (rbRef id ns) with ⟨c4, r4⟩
    have ev4 : c4.events =
        c.events ++ [pspRef, saRef id ns, roleRefK id ns, rbRef id ns] := by
      have := apiCreate_events c3 (rbRef id ns)
      rw [h4] at this
      simp only at this
      rw [this, ev3, List.append_assoc]
      rfl
    cases r2 with
    | otherError m =>
      refine ⟨2, by omega, by omega, ?_, ?_⟩
      · simp only [createPSPResources, h1, h2, resultToErr, ev2, pspSeq, List.take]
      · intro r hr
        simp only [createPSPResources, h1, h2, resultToErr] at hr
        cases hr
    | alreadyExists =>
      refine ⟨2, by omega, by omega, ?_, ?_⟩
      · simp only [createPSPResources, h1, h2, resultToErr, ev2, pspSeq, List.take]
      · intro r hr
        simp only [createPSPResources, h1, h2, resultToErr] at hr
        cases hr
    | ok =>
      cases r3 with
      | otherError m =>
        refine ⟨3, by omega, by omega, ?_, ?_⟩
        · simp only [createPSPResources, h1, h2, h3, resultToErr, ev3, pspSeq,
            List.take]
        · intro r hr
          simp only [createPSPResources, h1, h2, h3, resultToErr] at hr
          cases hr
      | alreadyExists =>
        refine ⟨3, by omega, by omega, ?_, ?_⟩
        · simp only [createPSPResources, h1, h2, h3, resultToErr, ev3, pspSeq,
            List.take]
        · intro r hr
          simp only [createPSPResources, h1, h2, h3, resultToErr] at hr
          cases hr
      | ok =>
        cases r4 with
        | otherError m =>
          refine ⟨4, by omega, by omega, ?_, fun r hr => rfl⟩
          simp only [createPSPResources, h1, h2, h3, h4, resultToErr, ev4, pspSeq,
            List.take]
        | alreadyExists =>
          refine ⟨4, by omega, by omega, ?_, fun r hr => rfl⟩
          simp only [createPSPResources, h1, h2, h3, h4, resultToErr, ev4, pspSeq,
            List.take]
        | ok =>
          refine ⟨4, by omega, by omega, ?_, fun r hr => rfl⟩
          simp only [createPSPResources, h1, h2, h3, h4, resultToErr, ev4, pspSeq,
            List.take]

theorem createPSPResources_fault (c : Cluster) (id ns : String) (k : Nat)
    (m : String) (rest : List (Option String)) (hk : k ≤ 3)
    (hf : c.faults = List.replicate k none ++ some m :: rest)
    (hpsp : pspRef ∉ c.objects) (hsa : saRef id ns ∉ c.objects)
    (hrole : roleRefK id ns ∉ c.objects) :
    createPSPResources c id ns =
      ({ objects := ((pspSeq id ns).take k).reverse ++ c.objects,
         faults := rest,
         events := c.events ++ (pspSeq id ns).take (k+1) }, .error m) := by
  interval_cases k
  · have hf0 : c.faults = some m :: rest := by simpa using hf
    have ePsp := ensurePSP_fault c m rest hf0
    simp [createPSPResources, ePsp, pspSeq]
  · have hf1 : c.faults = none :: (some m :: rest) := by simpa using hf
    have ePsp := ensurePSP_nfault_notMem c (some m :: rest) hf1 hpsp
    have eSa := apiCreate_fault
      (Cluster.mk (pspRef :: c.objects) (some m :: rest) (c.events ++ [pspRef]))
      (saRef id ns) m rest rfl
    simp [List.append_assoc] at eSa
    simp [createPSPResources, ePsp, eSa, resultToErr, pspSeq, List.append_assoc]
  · have hf2 : c.faults = none :: (none :: (some m :: rest)) := by simpa using hf
    have ePsp := ensurePSP_nfault_notMem c (none :: some m :: rest) hf2 hpsp
    have hmemSa : saRef id ns ∉ pspRef :: c.objects := by
      intro hx
      rcases List.mem_cons.mp hx with h | h
      · exact saRef_ne_pspRef id ns h
      · exact hsa h
    have eSa := apiCreate_nfault_notMem
      (Cluster.mk (pspRef :: c.objects) (none :: some m :: rest) (c.events ++ [pspRef]))
      (saRef id ns) (some m :: rest) rfl hmemSa
    have eRole := apiCreate_fault
      (Cluster.mk (saRef id ns :: pspRef :: c.objects) (some m :: rest)
        ((c.events ++ [pspRef]) ++ [saRef id ns]))
      (roleRefK id ns) m rest rfl
    simp [List.append_assoc] at eSa eRole
    simp [createPSPResources, ePsp, eSa, eRole, resultToErr, pspSeq,
      List.append_assoc]
  · have hf3 : c.faults = none :: (none :: (none :: (some m :: rest))) := by
      simpa using hf
    have ePsp := ensurePSP_nfault_notMem c (none :: none :: some m :: rest) hf3 hpsp
    have hmemSa : saRef id ns ∉ pspRef :: c.objects := by
      intro hx
      rcases List.mem_cons.mp hx with h | h
      · exact saRef_ne_pspRef id ns h
      · exact hsa h
    have eSa := apiCreate_nfault_notMem
      (Cluster.mk (pspRef :: c.objects) (none :: none :: some m :: rest)
        (c.events ++ [pspRef]))
      (saRef id ns) (none :: some m :: rest) rfl hmemSa
    have hmemRole : roleRefK id ns ∉ saRef id ns :: pspRef :: c.objects := by
      intro hx
      rcases List.mem_cons.mp hx with h | h
      · exact roleRefK_ne_saRef id ns h
      · rcases List.mem_cons.mp h with h2 | h2
        · exact roleRefK_ne_pspRef id ns h2
        · exact hrole h2
    have eRole := apiCreate_nfault_notMem
      (Cluster.mk (saRef id ns :: pspRef :: c.objects) (none :: some m :: rest)
        ((c.events ++ [pspRef]) ++ [saRef id ns]))
      (roleRefK id ns) (some m :: rest) rfl hmemRole
    have eRb := apiCreate_fault
      (Cluster.mk (roleRefK id ns :: saRef id ns :: pspRef :: c.objects)
        (some m :: rest)
        (((c.events ++ [pspRef]) ++ [saRef id ns]) ++ [roleRefK id ns]))
      (rbRef id ns) m rest rfl
    simp [List.append_assoc] at eSa eRole eRb
    simp [createPSPResources, ePsp, eSa, eRole, eRb, resultToErr, pspSeq,
      List.append_assoc]

theorem createPSPResources_success (c : Cluster) (id ns : String)
    (hf : c.faults = []) (hsa : saRef id ns ∉ c.objects)
    (hrole : roleRefK id ns ∉ c.objects) (hrb : rbRef id ns ∉ c.objects) :
    (createPSPResources c id ns).2 = .ok ("pv-migrate-" ++ id) ∧
    (createPSPResources c id ns).1.events = c.events ++ pspSeq id ns ∧
    pspRef ∈ (createPSPResources c id ns).1.objects ∧
    saRef id ns ∈ (createPSPResources c id ns).1.objects ∧
    roleRefK id ns ∈ (createPSPResources c id ns).1.objects ∧
    rbRef id ns ∈ (createPSPResources c id ns).1.objects := by
  by_cases hpsp : pspRef ∈ c.objects
  · have ePsp := ensurePSP_nofault_mem c hf hpsp
    have eSa := apiCreate_nofault_notMem
      { c with events := c.events ++ [pspRef] } (saRef id ns) hf hsa
    have hmemRole : roleRefK id ns ∉ saRef id ns :: c.objects := by
      intro hx
      rcases List.mem_cons.mp hx with h | h
      · exact roleRefK_ne_saRef id ns h
      · exact hrole h
    have eRole := apiCreate_nofault_notMem
      (Cluster.mk (saRef id ns :: c.objects) c.faults
        ((c.events ++ [pspRef]) ++ [saRef id ns]))
      (roleRefK id ns) hf hmemRole
    have hmemRb : rbRef id ns ∉ roleRefK id ns :: saRef id ns :: c.objects := by
      intro hx
      rcases List.mem_cons.mp hx with h | h
      · exact rbRef_ne_roleRefK id ns h
      · rcases List.mem_cons.mp h with h2 | h2
        · exact rbRef_ne_saRef id ns h2
        · exact hrb h2
    have eRb := apiCreate_nofault_notMem
      (Cluster.mk (roleRefK id ns :: saRef id ns :: c.objects) c.faults
        (((c.events ++ [pspRef]) ++ [saRef id ns]) ++ [roleRefK id ns]))
      (rbRef id ns) hf hmemRb
    simp [List.append_assoc] at eSa eRole eRb
    have eAll : createPSPResources c id ns =
        ({ objects := rbRef id ns :: roleRefK id ns :: saRef id ns :: c.objects,
           faults := c.faults,
           events := (((c.events ++ [pspRef]) ++ [saRef id ns]) ++ [roleRefK id ns]) ++ [rbRef id ns] },
         .ok ("pv-migrate-" ++ id)) := by
      simp [createPSPResources, ePsp, eSa, eRole, eRb, resultToErr]
    rw [eAll]
    refine ⟨rfl, ?_, ?_, ?_, ?_, ?_⟩
    · simp [pspSeq, List.append_assoc]
    · simp only
      exact List.mem_cons_of_mem _ (List.mem_cons_of_mem _
        (List.mem_cons_of_mem _ hpsp))
    · simp
    · simp
    · simp
  · have ePsp := ensurePSP_nofault_notMem c hf hpsp
    have hmemSa : saRef id ns ∉ pspRef :: c.objects := by
      intro hx
      rcases List.mem_cons.mp hx with h | h
      · exact saRef_ne_pspRef id ns h
      · exact hsa h
    have eSa := apiCreate_nofault_notMem
      (Cluster.mk (pspRef :: c.objects) c.faults (c.events ++ [pspRef]))
      (saRef id ns) hf hmemSa
    have hmemRole : roleRefK id ns ∉ saRef id ns :: pspRef :: c.objects := by
      intro hx
      rcases List.mem_cons.mp hx with h | h
      · exact roleRefK_ne_saRef id ns h
      · rcases List.mem_cons.mp h with h2 | h2
        · exact roleRefK_ne_pspRef id ns h2
        · exact hrole h2
    have eRole := apiCreate_nofault_notMem
      (Cluster.mk (saRef id ns :: pspRef :: c.objects) c.faults
        ((c.events ++ [pspRef]) ++ [saRef id ns]))
      (roleRefK id ns) hf hmemRole
    have hmemRb : rbRef id ns ∉
        roleRefK id ns :: saRef id ns :: pspRef :: c.objects := by
      intro hx
      rcases List.mem_cons.mp hx with h | h
      · exact rbRef_ne_roleRefK id ns h
      · rcases List.mem_cons.mp h with h2 | h2
        · exact rbRef_ne_saRef id ns h2
        · rcases List.mem_cons.mp h2 with h3 | h3
          · exact rbRef_ne_pspRef id ns h3
          · exact hrb h3
    have eRb := apiCreate_nofault_notMem
      (Cluster.mk (roleRefK id ns :: saRef id ns :: pspRef :: c.objects) c.faults
        (((c.events ++ [pspRef]) ++ [saRef id ns]) ++ [roleRefK id ns]))
      (rbRef id ns) hf hmemRb
    simp [List.append_assoc] at eSa eRole eRb
    have eAll : createPSPResources c id ns =
        ({ objects := rbRef id ns :: roleRefK id ns :: saRef id ns :: pspRef :: c.objects,
           faults := c.faults,
           events := (((c.events ++ [pspRef]) ++ [saRef id ns]) ++ [roleRefK id ns]) ++ [rbRef id ns] },
         .ok ("pv-migrate-" ++ id)) := by
      simp [createPSPResources, ePsp, eSa, eRole, eRb, resultToErr]
    rw [eAll]
    refine ⟨rfl, ?_, ?_, ?_, ?_, ?_⟩
    · simp [pspSeq, List.append_assoc]
    · simp
    · simp
    · simp
    · simp

/-- C3: `createPSPResources` first ensures the cluster-scoped shared
policy, then creates the service account, the role and the role binding,
in that order (its event log gains a prefix of exactly that call sequence,
and the whole sequence exactly on success); the first failing sub-step's
error is returned immediately and no further create call is attempted
(with the failure injected at step `k+1`, exactly `k+1` calls are logged
and exactly the first `k` objects were created); and no object that
existed before is ever deleted. -/
theorem createPSPResources_grant_sequence :
    (∀ (c : Cluster) (id ns : String),
      c.objects ⊆ (createPSPResources c id ns).1.objects) ∧
    (∀ (c : Cluster) (id ns : String), ∃ k, 1 ≤ k ∧ k ≤ 4 ∧
      (createPSPResources c id ns).1.events = c.events ++ (pspSeq id ns).take k ∧
      (∀ r, (createPSPResources c id ns).2 = .ok r → k = 4)) ∧
    (∀ (c : Cluster) (id ns : String) (k : Nat) (m : String)
        (rest : List (Option String)), k ≤ 3 →
      c.faults = List.replicate k none ++ some m :: rest →
      pspRef ∉ c.objects → saRef id ns ∉ c.objects →
      roleRefK id ns ∉ c.objects →
      createPSPResources c id ns =
        ({ objects := ((pspSeq id ns).take k).reverse ++ c.objects,
           faults := rest,
           events := c.events ++ (pspSeq id ns).take (k+1) }, .error m)) ∧
    (∀ (c : Cluster) (id ns : String), c.faults = [] →
      saRef id ns ∉ c.objects → roleRefK id ns ∉ c.objects →
      rbRef id ns ∉ c.objects →
      (createPSPResources c id ns).2 = .ok ("pv-migrate-" ++ id) ∧
      (createPSPResources c id ns).1.events = c.events ++ pspSeq id ns) :=
  ⟨createPSPResources_objects_mono,
   createPSPResources_events_order,
   createPSPResources_fault,
   fun c id ns hf hsa hrole hrb =>
     ⟨(createPSPResources_success c id ns hf hsa hrole hrb).1,
      (createPSPResources_success c id ns hf hsa hrole hrb).2.1⟩⟩

/-- Witness for C3: on the empty cluster with a fault injected at the
role-creation step, the grant creation stops right there with that error,
having created only the policy and the service account. -/
theorem createPSPResources_grant_sequence_witness :
    createPSPResources ⟨[], [none, none, some "boom"], []⟩ "id1" "ns1" =
      ({ objects := ((pspSeq "id1" "ns1").take 2).reverse ++ [],
         faults := [],
         events := [] ++ (pspSeq "id1" "ns1").take 3 }, .error "boom") :=
  createPSPResources_grant_sequence.2.2.1 ⟨[], [none, none, some "boom"], []⟩
    "id1" "ns1" 2 "boom" [] (by omega) rfl (by simp) (by simp) (by simp)

theorem escapeChar_length_pos (c : Char) : 0 < (escapeChar c).length := by
  unfold escapeChar
  split_ifs <;> first | decide | simp [String.length_singleton]

theorem htmlEscape_ne_empty (s : String) (hs : s ≠ "") : htmlEscape s ≠ "" := by
  rcases s with ⟨data⟩
  cases data with
  | nil => exact absurd rfl hs
  | cons c cs =>
    intro hcon
    have hl := congrArg String.length hcon
    have he : htmlEscape ⟨c :: cs⟩ = escapeChar c ++ htmlEscape ⟨cs⟩ := rfl
    rw [he, String.length_append, String.length_empty] at hl
    have := escapeChar_length_pos c
    omega

set_option maxRecDepth 8000 in
theorem buildRsyncScript_renders (d n : Bool) (h : String) :
    BuildRsyncScript d n h = .ok (rsyncScriptSpec d n (htmlEscape h)) := by
  by_cases hh : h = ""
  · subst hh
    cases d <;> cases n <;> rfl
  · have hne := htmlEscape_ne_empty h hh
    have e10 : htmlEscape (toString maxRetries) = "10" := rfl
    have e5c : htmlEscape (toString sshConnectTimeoutSecs) = "5" := rfl
    have e5r : htmlEscape (toString retryIntervalSecs) = "5" := rfl
    cases d <;> cases n <;>
      (simp [BuildRsyncScript, scriptTemplate, scriptEnv, renderNodes,
         renderNode, renderLeaves, renderLeaf, lookupField, TValue.truthy,
         TValue.render, rsyncScriptSpec, hh, hne, e10, e5c, e5r,
         String.append_assoc]
       rfl)

theorem escapeChar_plain (c : Char)
    (hc : c.toNat ≠ 38 ∧ c.toNat ≠ 60 ∧ c.toNat ≠ 62 ∧ c.toNat ≠ 34 ∧
      c.toNat ≠ 39 ∧ c.toNat ≠ 0) :
    escapeChar c = String.singleton c := by
  unfold escapeChar
  split_ifs <;> tauto

theorem htmlEscape_plain (s : String)
    (hs : ∀ c ∈ s.data, c.toNat ≠ 38 ∧ c.toNat ≠ 60 ∧ c.toNat ≠ 62 ∧
      c.toNat ≠ 34 ∧ c.toNat ≠ 39 ∧ c.toNat ≠ 0) :
    htmlEscape s = s := by
  rcases s with ⟨data⟩
  induction data with
  | nil => rfl
  | cons c cs ih =>
    have hc := hs c (List.mem_cons_self c cs)
    have hcs : ∀ x ∈ cs, x.toNat ≠ 38 ∧ x.toNat ≠ 60 ∧ x.toNat ≠ 62 ∧
        x.toNat ≠ 34 ∧ x.toNat ≠ 39 ∧ x.toNat ≠ 0 :=
      fun x hx => hs x (List.mem_cons_of_mem c hx)
    have he : htmlEscape ⟨c :: cs⟩ = escapeChar c ++ htmlEscape ⟨cs⟩ := rfl
    rw [he, escapeChar_plain c hc, ih hcs]
    rfl

set_option maxRecDepth 8000 in
/-- C8 fails as stated: for the host `a&b` the script does not contain
`root@a&b:/source/` — the `html/template` engine HTML-escapes the injected
host, producing `root@a&amp;b:/source/` instead. -/
theorem rsync_script_flags_counterexample :
    BuildRsyncScript false false "a&b" ≠
      .ok (rsyncScriptSpec false false "a&b") := by
  rw [buildRsyncScript_renders]
  intro hcon
  injection hcon with h2
  exact absurd h2 (by decide)

/-- C8 (amended): for every input triple the script contains the
`--delete` flag iff `deleteExtraneousFiles`, contains `--no-o --no-g` iff
`noChown`, and — exactly when `sshTargetHost` is non-empty — uses the
remote ssh source `root@H:/source/` with `ConnectTimeout=5`, where `H` is
the HTML-escaping of `sshTargetHost` (equal to `sshTargetHost` whenever it
contains none of the characters `&` `<` `>` `"` `'` or NUL), and otherwise
the local source `/source/`; all this is expressed by the closed script
form `rsyncScriptSpec`. -/
theorem rsync_script_parameters :
    (∀ (d n : Bool) (h : String),
      BuildRsyncScript d n h = .ok (rsyncScriptSpec d n (htmlEscape h))) ∧
    (∀ host : String,
      (∀ c ∈ host.data, c.toNat ≠ 38 ∧ c.toNat ≠ 60 ∧ c.toNat ≠ 62 ∧
        c.toNat ≠ 34 ∧ c.toNat ≠ 39 ∧ c.toNat ≠ 0) →
      htmlEscape host = host) :=
  ⟨buildRsyncScript_renders, htmlEscape_plain⟩

/-- Witness for C8: at the plain host `10.0.0.7` the escaping is the
identity and the rendered script is the claimed remote-source script. -/
theorem rsync_script_parameters_witness :
    htmlEscape "10.0.0.7" = "10.0.0.7" ∧
    BuildRsyncScript true true "10.0.0.7" =
      .ok (rsyncScriptSpec true true (htmlEscape "10.0.0.7")) :=
  ⟨rsync_script_parameters.2 "10.0.0.7" (by decide),
   rsync_script_parameters.1 true true "10.0.0.7"⟩

/-- C10: `BuildRsyncScript` is total — for every input triple it returns a
script and no error; the template-execution error branch is unreachable
because every field the template mentions exists in the `script` struct. -/
theorem buildRsyncScript_total (d n : Bool) (h : String) :
    ∃ s, BuildRsyncScript d n h = .ok s :=
  ⟨rsyncScriptSpec d n (htmlEscape h), buildRsyncScript_renders d n h⟩

/-- C7: for every task, the job built by `buildRsyncJobDest` is built
successfully and is a run-to-completion unit: backoff limit 0, retention
window `TTLSecondsAfterFinished = 600`, restart policy `Never`, exactly
one container, the caller's service account, and exactly the two ephemeral
volumes — the destination claim and the private-key secret. -/
theorem rsync_job_run_to_completion (t : TaskK)
    (targetHost pkSecretName svcAccName : String) :
    (buildRsyncJobDest t targetHost pkSecretName svcAccName).map (fun j =>
      (j.spec.backoffLimit, j.spec.ttlSecondsAfterFinished,
       j.spec.template.spec.restartPolicy,
       j.spec.template.spec.containers.length,
       j.spec.template.spec.serviceAccountName,
       j.spec.template.spec.volumes)) =
    .ok (0, 600, "Never", 1, svcAccName,
      [⟨"dest-vol", .persistentVolumeClaim t.destInfo.claim.name⟩,
       ⟨"private-key-vol", .secret pkSecretName 256⟩]) := by
  simp [buildRsyncJobDest, buildRsyncScript_renders, Except.map]

/-- C9: the private key is placed only in the secret built for the
destination claim's namespace, named from the instance id, holding the key
under the `privateKey` entry; and in the job that consumes it, the
private-key volume is backed by that secret with default file mode 256
(octal 0400), mounted exactly once, at a single path under `/root/.ssh`,
via the `privateKey` sub-path. -/
theorem private_key_confinement (instanceId destNs privateKey : String)
    (t : TaskK) (targetHost pkSecretName svcAccName : String) :
    (createRsyncPrivateKeySecret instanceId destNs privateKey).metadata.inNs = destNs ∧
    (createRsyncPrivateKeySecret instanceId destNs privateKey).metadata.name =
      "pv-migrate-rsync-" ++ instanceId ∧
    (createRsyncPrivateKeySecret instanceId destNs privateKey).data =
      [("privateKey", privateKey)] ∧
    (buildRsyncJobDest t targetHost pkSecretName svcAccName).map (fun j =>
        j.spec.template.spec.volumes.filter
          (fun v => v.name == "private-key-vol")) =
      .ok [⟨"private-key-vol", .secret pkSecretName 256⟩] ∧
    (buildRsyncJobDest t targetHost pkSecretName svcAccName).map (fun j =>
        j.spec.template.spec.containers.map (fun c =>
          c.volumeMounts.filter (fun m2 => m2.name == "private-key-vol"))) =
      .ok [[⟨"private-key-vol",
            "/root/.ssh/id_" ++ t.migration.options.keyAlgorithm,
            "privateKey"⟩]] := by
  refine ⟨rfl, rfl, rfl, ?_, ?_⟩ <;>
    simp [buildRsyncJobDest, buildRsyncScript_renders, Except.map]

/-- C5 fails as stated: the service account created for instance `abc`
carries no labels at all on its metadata (in particular no `instance`
label), and the job's own metadata carries no labels either (the common
label set sits only on the job's pod template). -/
theorem ephemeral_labels_counterexample :
    (pspServiceAccount "abc").metadata.labels = [] ∧
    List.lookup "instance" (pspServiceAccount "abc").metadata.labels = none ∧
    (buildRsyncJobDest
        ⟨"abc", ⟨⟨false, false, "rsa", false, false⟩, "img", "simg"⟩,
         ⟨⟨"src", "nss"⟩, "n1"⟩, ⟨⟨"dst", "nsd"⟩, "n2"⟩⟩
        "" "sec" "sa").map (fun j => j.metadata.labels) = .ok [] := by
  refine ⟨rfl, rfl, ?_⟩
  simp [buildRsyncJobDest, buildRsyncScript_renders, Except.map]

/-- C5 (amended): the rsync secret and rsync job carry the deterministic
name `pv-migrate`-`rsync`-`<instanceId>`; the common label set sits on the
secret's own metadata and on the job's pod template metadata (not on the
job object itself); the PSP service account, role and role binding are
named `pv-migrate-<instanceId>` with no component tag and carry no
labels. -/
theorem ephemeral_naming_and_labels (instanceId pvcNs privateKey : String)
    (t : TaskK) (targetHost pkSecretName svcAccName : String) :
    (createRsyncPrivateKeySecret instanceId pvcNs privateKey).metadata.name =
      "pv-migrate" ++ "-" ++ Rsync ++ "-" ++ instanceId ∧
    (createRsyncPrivateKeySecret instanceId pvcNs privateKey).metadata.labels =
      ComponentLabels instanceId Rsync ∧
    (buildRsyncJobDest t targetHost pkSecretName svcAccName).map (fun j =>
        (j.metadata.name, j.metadata.labels, j.spec.template.metadata.labels)) =
      .ok ("pv-migrate" ++ "-" ++ Rsync ++ "-" ++ t.id, [],
        ComponentLabels t.id Rsync) ∧
    (pspServiceAccount instanceId).metadata.name = "pv-migrate-" ++ instanceId ∧
    (pspServiceAccount instanceId).metadata.labels = [] ∧
    (pspRole instanceId pvcNs).metadata.name = "pv-migrate-" ++ instanceId ∧
    (pspRole instanceId pvcNs).metadata.labels = [] ∧
    (pspRoleBinding instanceId pvcNs).metadata.name = "pv-migrate-" ++ instanceId ∧
    (pspRoleBinding instanceId pvcNs).metadata.labels = [] := by
  refine ⟨rfl, rfl, ?_, rfl, rfl, rfl, rfl, rfl, rfl⟩
  simp [buildRsyncJobDest, buildRsyncScript_renders, Except.map, Rsync]

/-- C6: the access grant is minimal — the role holds exactly one rule,
granting only the verb `use` on `podsecuritypolicies` of API group
`policy` restricted to the single resource name `pv-migrate`; and the role
binding lives in the grant's namespace, binds exactly the instance's own
service account, and refers exactly to the instance's namespace-local
role. -/
theorem access_grant_minimal (id ns : String) :
    (pspRole id ns).rules =
      [⟨["use"], ["policy"], ["podsecuritypolicies"], ["pv-migrate"]⟩] ∧
    (pspRole id ns).metadata.inNs = ns ∧
    (pspRoleBinding id ns).metadata.inNs = ns ∧
    (pspRoleBinding id ns).subjects =
      [⟨"ServiceAccount", (pspServiceAccount id).metadata.name⟩] ∧
    (pspRoleBinding id ns).roleRef =
      ⟨"rbac.authorization.k8s.io", "Role", (pspRole id ns).metadata.name⟩ :=
  ⟨rfl, rfl, rfl, rfl, rfl⟩

/-- C4 fails as stated: the identifiers `x` and `rsync-x` are distinct,
yet the PSP resource name generated for `rsync-x` collides with the rsync
secret name generated for `x` (both are `pv-migrate-rsync-x`). -/
theorem ephemeral_names_clash_counterexample :
    ("x" : String) ≠ "rsync-x" ∧
    pspResourceName "rsync-x" ∈ ephemeralNames "x" ∧
    rsyncSecretName "x" ∈ ephemeralNames "rsync-x" := by
  refine ⟨by decide, by decide, by decide⟩

theorem append_ne_of_ne (p a b : String) (h : a ≠ b) : p ++ a ≠ p ++ b := by
  intro he
  apply h
  have hd := congrArg String.data he
  rw [String.data_append, String.data_append] at hd
  exact String.ext (List.append_cancel_left hd)

theorem rsync_psp_name_ne (a b : String) (hlen : a.length = b.length) :
    rsyncSecretName a ≠ pspResourceName b := by
  intro he
  have hl := congrArg String.length he
  simp only [rsyncSecretName, pspResourceName, String.length_append] at hl
  have h17 : ("pv-migrate-rsync-" : String).length = 17 := rfl
  have h11 : ("pv-migrate-" : String).length = 11 := rfl
  rw [h17, h11] at hl
  omega

/-- C4 (amended): for any two distinct instance identifiers of the same
length (the generated identifiers all have a fixed length), the ephemeral
object names generated for one are disjoint from those generated for the
other. -/
theorem ephemeral_names_disjoint (id1 id2 : String)
    (hne : id1 ≠ id2) (hlen : id1.length = id2.length) :
    ∀ x ∈ ephemeralNames id1, x ∉ ephemeralNames id2 := by
  have hss : rsyncSecretName id1 ≠ rsyncSecretName id2 :=
    append_ne_of_ne _ _ _ hne
  have hpp : pspResourceName id1 ≠ pspResourceName id2 :=
    append_ne_of_ne _ _ _ hne
  have hsp : rsyncSecretName id1 ≠ pspResourceName id2 :=
    rsync_psp_name_ne id1 id2 hlen
  have hps : pspResourceName id1 ≠ rsyncSecretName id2 :=
    fun he => rsync_psp_name_ne id2 id1 hlen.symm he.symm
  intro x hx hmem
  simp only [ephemeralNames, List.mem_cons, List.not_mem_nil, or_false] at hx hmem
  rcases hx with h | h | h <;> subst h <;> rcases hmem with g | g | g <;>
    first
    | exact hss g
    | exact hsp g
    | exact hps g
    | exact hpp g

/-- Witness for C4 (amended): for the distinct same-length identifiers `a`
and `b`, the secret name of `a` is not among the names of `b`. -/
theorem ephemeral_names_disjoint_witness :
    rsyncSecretName "a" ∉ ephemeralNames "b" :=
  ephemeral_names_disjoint "a" "b" (by decide) rfl (rsyncSecretName "a")
    (List.mem_cons_self _ _)

end PvMigrate
